import Mathlib

/-!
Verification of the generation-control configuration component
(`src/cpp/src/generation_config.cpp` of openvino.genai) against its
natural-language specification.

The C++ code is shallowly embedded: `size_t` fields become `Nat` (with the
`SIZE_MAX` sentinel spelled out and wraparound made explicit where the code
relies on unsigned subtraction), `int64_t` becomes `Int`, `float` fields
become `ℚ` (validation only compares them, so exact rationals are faithful),
and `OPENVINO_ASSERT` chains become `Except String` computations that stop at
the first violated check.
-/

namespace OVGenAI

/-- Beam-search early-termination policy, from `StopCriteria` in the public
header (`NEVER`, `EARLY`, `HEURISTIC`). -/
inductive StopCriteria where
  | NEVER
  | EARLY
  | HEURISTIC
deriving DecidableEq, Repr

/-- The C `SIZE_MAX` constant for a 64-bit `size_t`; the code uses it as the
"unset" sentinel for `max_new_tokens`, `max_length` and `top_k`. -/
def SIZE_MAX : Nat := 2 ^ 64 - 1

/-- Modelled from the spec: the field list and defaults of the
`GenerationConfig` struct live in the public header
`openvino/genai/generation_config.hpp`, which is not among the sources;
fields and defaults follow the data-model table of the spec (max caps unset
via the `SIZE_MAX` sentinel, single beam, neutral penalties, `HEURISTIC`
stop criteria, sampling disabled, `eos_token_id = -1` meaning unset). -/
structure GenerationConfig where
  max_new_tokens : Nat := SIZE_MAX
  max_length : Nat := SIZE_MAX
  ignore_eos : Bool := false
  num_beam_groups : Nat := 1
  num_beams : Nat := 1
  diversity_penalty : ℚ := 0
  length_penalty : ℚ := 1
  num_return_sequences : Nat := 1
  no_repeat_ngram_size : Nat := 0
  stop_criteria : StopCriteria := StopCriteria.HEURISTIC
  temperature : ℚ := 1
  top_p : ℚ := 1
  top_k : Nat := SIZE_MAX
  do_sample : Bool := false
  repetition_penalty : ℚ := 1
  eos_token_id : Int := -1
deriving DecidableEq, Repr

/-- The default-constructed configuration (all header defaults). -/
def defaultGenerationConfig : GenerationConfig := {}

/-- Unsigned 64-bit subtraction `a - b` as performed on `size_t` operands:
the mathematical difference reduced modulo `2 ^ 64` (wraparound on
underflow). -/
def sub64 (a b : Nat) : Nat := (a % 2 ^ 64 + 2 ^ 64 - b % 2 ^ 64) % 2 ^ 64

/-- `GenerationConfig::get_max_new_tokens(prompt_length)`: `max_new_tokens`
if it is not the `SIZE_MAX` sentinel, otherwise the `size_t` difference
`max_length - prompt_length`. -/
def GenerationConfig.get_max_new_tokens (c : GenerationConfig)
    (prompt_length : Nat) : Nat :=
  if c.max_new_tokens ≠ SIZE_MAX then
    c.max_new_tokens
  else
    sub64 c.max_length prompt_length

/-- `GenerationConfig::is_beam_search()`: `num_beams > 1`. -/
def GenerationConfig.is_beam_search (c : GenerationConfig) : Bool :=
  decide (1 < c.num_beams)

/-- `GenerationConfig::is_greedy_decoding()`: `!do_sample && !is_beam_search()`. -/
def GenerationConfig.is_greedy_decoding (c : GenerationConfig) : Bool :=
  !c.do_sample && !c.is_beam_search

/-- `GenerationConfig::is_multinomial()`: `do_sample`. -/
def GenerationConfig.is_multinomial (c : GenerationConfig) : Bool :=
  c.do_sample

/-- One `OPENVINO_ASSERT(cond, msg)` in a validation sequence: the condition
paired with the message raised when it fails. -/
abbrev Check := Bool × String

/-- Run a sequence of assert-style checks, failing with the message of the
first violated one (`OPENVINO_ASSERT` throws at the first failure). -/
def runChecks : List Check → Except String Unit
  | [] => Except.ok ()
  | (b, m) :: rest => if b then runChecks rest else Except.error m

/-- The ordered assert conditions of `GenerationConfig::validate()`,
translated check by check from the source. -/
def validate_checks (c : GenerationConfig) : List Check :=
  [ (!c.do_sample || c.num_beams == 1,
      "Beam search with sampling is not supported yet."),
    (decide (0 < c.max_new_tokens),
      "max_new_tokens must be greater than 0"),
    (c.max_new_tokens != SIZE_MAX || decide (0 < c.max_length),
      "max_length must be greater than 0 or max_new_tokens should be defined"),
    (!c.do_sample || decide (0 < c.top_k),
      "top_k must be a strictly positive"),
    (!c.do_sample || (decide (0 < c.top_p) && decide (c.top_p ≤ 1)),
      "top_p must be a positive float > 0 and < 1"),
    (!c.do_sample || decide (0 < c.temperature),
      "Temperature must be a strictly positive float"),
    (decide (0 < c.repetition_penalty),
      "Repetition penalty must be a strictly positive float"),
    (!c.ignore_eos || c.max_new_tokens != SIZE_MAX || c.max_length != SIZE_MAX,
      "ignore_eos == true, in this case either max_new_tokens, or max_length should be defined."),
    (c.eos_token_id != -1 || c.max_new_tokens != SIZE_MAX || c.max_length != SIZE_MAX,
      "Either eos_token_id, or max_new_tokens, or max_length should be defined.") ]

/-- `GenerationConfig::validate()`: run the assert sequence, erroring at the
first violated check. -/
def GenerationConfig.validate (c : GenerationConfig) : Except String Unit :=
  runChecks (validate_checks c)

/-- Second definition for the refinement claim about `validate`, written
from the words of the spec: the seven rules of the validation contract in
the stated order (rule 4 contributes its three sampling-domain checks in
order), each as the violation condition the rule rejects. -/
def spec_rules (c : GenerationConfig) : List Check :=
  [ (!(c.do_sample && c.num_beams != 1),
      "Beam search with sampling is not supported yet."),
    (!(c.max_new_tokens == 0),
      "max_new_tokens must be greater than 0"),
    (!(c.max_new_tokens == SIZE_MAX && c.max_length == 0),
      "max_length must be greater than 0 or max_new_tokens should be defined"),
    (!(c.do_sample && !decide (0 < c.top_k)),
      "top_k must be a strictly positive"),
    (!(c.do_sample && !(decide (0 < c.top_p) && decide (c.top_p ≤ 1))),
      "top_p must be a positive float > 0 and < 1"),
    (!(c.do_sample && !decide (0 < c.temperature)),
      "Temperature must be a strictly positive float"),
    (!(!decide (0 < c.repetition_penalty)),
      "Repetition penalty must be a strictly positive float"),
    (!(c.ignore_eos && c.max_new_tokens == SIZE_MAX && c.max_length == SIZE_MAX),
      "ignore_eos == true, in this case either max_new_tokens, or max_length should be defined."),
    (!(c.eos_token_id == -1 && c.max_new_tokens == SIZE_MAX && c.max_length == SIZE_MAX),
      "Either eos_token_id, or max_new_tokens, or max_length should be defined.") ]

/-- Spec-side validator: report the message of the first rule whose
violation condition holds, succeed when no rule is violated. -/
def validateSpec (c : GenerationConfig) : Except String Unit :=
  match (spec_rules c).find? (fun p => !p.1) with
  | some p => Except.error p.2
  | none => Except.ok ()

/-- A typed value held by an external key-value source: a JSON document
field or an `ov::Any` entry of a runtime override map. -/
inductive CVal where
  | vnat : Nat → CVal
  | vint : Int → CVal
  | vrat : ℚ → CVal
  | vbool : Bool → CVal
  | vstr : String → CVal
  | vstop : StopCriteria → CVal
deriving DecidableEq, Repr

/-- Modelled from the spec: `read_json_param` / `read_anymap_param` live in
`utils.hpp`, which is not among the sources. Per the population contract, a
recognized key present in the source overwrites the field, an absent key
leaves the current value, and a type mismatch is a configuration error.
This reader targets a `size_t` field. -/
def readNat (src : String → Option CVal) (key : String) (cur : Nat) :
    Except String Nat :=
  match src key with
  | none => Except.ok cur
  | some (CVal.vnat n) => Except.ok n
  | some _ => Except.error ("Type mismatch for parameter " ++ key)

/-- Modelled from the spec: reader for an `int64_t` field (see `readNat`). -/
def readInt (src : String → Option CVal) (key : String) (cur : Int) :
    Except String Int :=
  match src key with
  | none => Except.ok cur
  | some (CVal.vint i) => Except.ok i
  | some _ => Except.error ("Type mismatch for parameter " ++ key)

/-- Modelled from the spec: reader for a `float` field (see `readNat`). -/
def readRat (src : String → Option CVal) (key : String) (cur : ℚ) :
    Except String ℚ :=
  match src key with
  | none => Except.ok cur
  | some (CVal.vrat q) => Except.ok q
  | some _ => Except.error ("Type mismatch for parameter " ++ key)

/-- Modelled from the spec: reader for a `bool` field (see `readNat`). -/
def readBool (src : String → Option CVal) (key : String) (cur : Bool) :
    Except String Bool :=
  match src key with
  | none => Except.ok cur
  | some (CVal.vbool b) => Except.ok b
  | some _ => Except.error ("Type mismatch for parameter " ++ key)

/-- Modelled from the spec: reader for a `StopCriteria` field (see
`readNat`). -/
def readStop (src : String → Option CVal) (key : String)
    (cur : StopCriteria) : Except String StopCriteria :=
  match src key with
  | none => Except.ok cur
  | some (CVal.vstop s) => Except.ok s
  | some _ => Except.error ("Type mismatch for parameter " ++ key)

/-- The `early_stopping` legacy decoding of the JSON constructor: when the
key is present, the string `"never"` selects `NEVER`, boolean `true`
selects `EARLY`, boolean `false` selects `HEURISTIC`, and every other
encoding keeps the current value without erroring. -/
def earlyStoppingShim (v : Option CVal) (cur : StopCriteria) : StopCriteria :=
  match v with
  | some (CVal.vstr s) => if s = "never" then StopCriteria.NEVER else cur
  | some (CVal.vbool b) =>
      if b then StopCriteria.EARLY else StopCriteria.HEURISTIC
  | _ => cur

/-- The JSON-path constructor `GenerationConfig::GenerationConfig(json_path)`
after the file has been opened and parsed: starting from the
default-constructed fields, read the recognized keys in source order
(note: `ignore_eos` is deliberately not read from JSON, and `stop_criteria`
is only reachable through the `early_stopping` shim). -/
def GenerationConfig.loadFromJson (src : String → Option CVal) :
    Except String GenerationConfig := do
  let d := defaultGenerationConfig
  let mnt ← readNat src "max_new_tokens" d.max_new_tokens
  let ml ← readNat src "max_length" d.max_length
  let nbg ← readNat src "num_beam_groups" d.num_beam_groups
  let nb ← readNat src "num_beams" d.num_beams
  let dp ← readRat src "diversity_penalty" d.diversity_penalty
  let lp ← readRat src "length_penalty" d.length_penalty
  let nrs ← readNat src "num_return_sequences" d.num_return_sequences
  let nng ← readNat src "no_repeat_ngram_size" d.no_repeat_ngram_size
  let tmp ← readRat src "temperature" d.temperature
  let tp ← readRat src "top_p" d.top_p
  let tk ← readNat src "top_k" d.top_k
  let ds ← readBool src "do_sample" d.do_sample
  let rp ← readRat src "repetition_penalty" d.repetition_penalty
  let eti ← readInt src "eos_token_id" d.eos_token_id
  let sc := earlyStoppingShim (src "early_stopping") d.stop_criteria
  pure { max_new_tokens := mnt, max_length := ml,
         ignore_eos := d.ignore_eos, num_beam_groups := nbg,
         num_beams := nb, diversity_penalty := dp, length_penalty := lp,
         num_return_sequences := nrs, no_repeat_ngram_size := nng,
         stop_criteria := sc, temperature := tmp, top_p := tp,
         top_k := tk, do_sample := ds, repetition_penalty := rp,
         eos_token_id := eti }

/-- `GenerationConfig::update_generation_config(config_map)`: read every
recognized key of the runtime override map in source order (all sixteen
fields, including `ignore_eos` and `stop_criteria`). -/
def GenerationConfig.update_generation_config (c : GenerationConfig)
    (m : String → Option CVal) : Except String GenerationConfig := do
  let mnt ← readNat m "max_new_tokens" c.max_new_tokens
  let ml ← readNat m "max_length" c.max_length
  let ie ← readBool m "ignore_eos" c.ignore_eos
  let nbg ← readNat m "num_beam_groups" c.num_beam_groups
  let nb ← readNat m "num_beams" c.num_beams
  let dp ← readRat m "diversity_penalty" c.diversity_penalty
  let lp ← readRat m "length_penalty" c.length_penalty
  let nrs ← readNat m "num_return_sequences" c.num_return_sequences
  let nng ← readNat m "no_repeat_ngram_size" c.no_repeat_ngram_size
  let sc ← readStop m "stop_criteria" c.stop_criteria
  let tmp ← readRat m "temperature" c.temperature
  let tp ← readRat m "top_p" c.top_p
  let tk ← readNat m "top_k" c.top_k
  let ds ← readBool m "do_sample" c.do_sample
  let rp ← readRat m "repetition_penalty" c.repetition_penalty
  let eti ← readInt m "eos_token_id" c.eos_token_id
  pure { max_new_tokens := mnt, max_length := ml, ignore_eos := ie,
         num_beam_groups := nbg, num_beams := nb, diversity_penalty := dp,
         length_penalty := lp, num_return_sequences := nrs,
         no_repeat_ngram_size := nng, stop_criteria := sc,
         temperature := tmp, top_p := tp, top_k := tk, do_sample := ds,
         repetition_penalty := rp, eos_token_id := eti }

/-- A configuration that validates: only `max_new_tokens` set. -/
def cfgMaxNew : GenerationConfig := { max_new_tokens := 100 }

/-- A sampling configuration that validates. -/
def cfgSampling : GenerationConfig :=
  { max_new_tokens := 100, do_sample := true, top_k := 50 }

/-- A configuration with beam width zero (reachable: validation does not
reject it when sampling is off). -/
def cfgZeroBeams : GenerationConfig := { num_beams := 0 }

/-- A configuration with only `max_length` set. -/
def cfgMaxLen : GenerationConfig := { max_length := 100 }

/-- A configuration with `max_new_tokens` unset and a short `max_length`,
exercising the underflowing subtraction. -/
def cfgShortMax : GenerationConfig := { max_length := 5 }

/-- Source document containing only `ignore_eos: true`. -/
def srcIgnoreEos : String → Option CVal :=
  fun k => if k = "ignore_eos" then some (CVal.vbool true) else none

/-- Source document containing only `num_beams: 4`. -/
def srcNumBeams : String → Option CVal :=
  fun k => if k = "num_beams" then some (CVal.vnat 4) else none

/-- Source document containing only `early_stopping: "never"`. -/
def srcNever : String → Option CVal :=
  fun k => if k = "early_stopping" then some (CVal.vstr "never") else none

/-- Override map containing only `top_k: 40`. -/
def srcTopK : String → Option CVal :=
  fun k => if k = "top_k" then some (CVal.vnat 40) else none

theorem runChecks_eq_find (l : List Check) :
    runChecks l = match l.find? (fun p => !p.1) with
                  | some p => Except.error p.2
                  | none => Except.ok () := by
  induction l with
  | nil => rfl
  | cons hd tl ih =>
    obtain ⟨b, m⟩ := hd
    cases b <;> simp [runChecks, List.find?, ih]

theorem runChecks_ok_iff (l : List Check) :
    runChecks l = Except.ok () ↔ ∀ p ∈ l, p.1 = true := by
  induction l with
  | nil => simp [runChecks]
  | cons hd tl ih =>
    obtain ⟨b, m⟩ := hd
    cases b <;> simp [runChecks, ih]

/-- Success characterisation of `validate`: it succeeds exactly when every
one of the nine assert conditions holds. -/
theorem validate_ok_iff (c : GenerationConfig) :
    c.validate = Except.ok () ↔
      ((c.do_sample = false ∨ c.num_beams = 1) ∧
       0 < c.max_new_tokens ∧
       (c.max_new_tokens ≠ SIZE_MAX ∨ 0 < c.max_length) ∧
       (c.do_sample = false ∨ 0 < c.top_k) ∧
       (c.do_sample = false ∨ (0 < c.top_p ∧ c.top_p ≤ 1)) ∧
       (c.do_sample = false ∨ 0 < c.temperature) ∧
       0 < c.repetition_penalty ∧
       (c.ignore_eos = false ∨ c.max_new_tokens ≠ SIZE_MAX ∨ c.max_length ≠ SIZE_MAX) ∧
       (c.eos_token_id ≠ -1 ∨ c.max_new_tokens ≠ SIZE_MAX ∨ c.max_length ≠ SIZE_MAX)) := by
  rw [GenerationConfig.validate, runChecks_ok_iff]
  simp [validate_checks, or_assoc]

theorem pos_bool (n : Nat) : (!(n == 0)) = decide (0 < n) := by
  cases n <;> simp

theorem not_and_not_right (a b : Bool) : (!(a && !b)) = (!a || b) := by
  cases a <;> cases b <;> rfl

theorem checks_eq (c : GenerationConfig) :
    validate_checks c = spec_rules c := by
  simp [validate_checks, spec_rules, Bool.not_and, Bool.not_not,
    not_and_not_right, pos_bool, bne]

/-- C3: `validate()` consists of exactly the seven rules of the validation
contract, checked in the stated order (rule 4 contributing its three
sampling-domain checks), and it reports the message of the first violated
rule: the code validator coincides with the rule-list validator written
from the spec. -/
theorem validate_refines_spec_rules (c : GenerationConfig) :
    c.validate = validateSpec c := by
  rw [GenerationConfig.validate, runChecks_eq_find, checks_eq, validateSpec]

/-- C1: on every configuration accepted by `validate()`, exactly one of
`is_greedy_decoding()`, `is_beam_search()`, `is_multinomial()` holds: their
boolean sum is exactly 1. -/
theorem decoding_mode_partition (c : GenerationConfig)
    (h : c.validate = Except.ok ()) :
    c.is_greedy_decoding.toNat + c.is_beam_search.toNat
      + c.is_multinomial.toNat = 1 := by
  have h1 := ((validate_ok_iff c).mp h).1
  unfold GenerationConfig.is_greedy_decoding GenerationConfig.is_beam_search
    GenerationConfig.is_multinomial
  rcases h1 with hds | hnb
  · simp only [hds, Bool.not_false, Bool.true_and, Bool.toNat_false]
    cases hb : decide (1 < c.num_beams) <;> simp [hb]
  · cases hds : c.do_sample <;> simp [hds, hnb]

/-- C2: `get_max_new_tokens(prompt_length)` returns `max_new_tokens`
whenever it is not the `SIZE_MAX` sentinel, and `max_length -
prompt_length` otherwise (stated where the subtraction cannot underflow;
the underflow case is treated separately). -/
theorem get_max_new_tokens_priority (c : GenerationConfig) (p : Nat)
    (hml : c.max_length < 2 ^ 64) (hp : p ≤ c.max_length) :
    c.get_max_new_tokens p =
      if c.max_new_tokens ≠ SIZE_MAX then c.max_new_tokens
      else c.max_length - p := by
  unfold GenerationConfig.get_max_new_tokens
  split
  · rfl
  · unfold sub64
    omega

/-- C9: when `max_new_tokens` is the `SIZE_MAX` sentinel and the prompt is
longer than `max_length`, `get_max_new_tokens` wraps around modulo
`2 ^ 64` (unsigned `size_t` subtraction): the result is the modular
difference, which is nonzero rather than clamped to zero, and no error is
raised. -/
theorem get_max_new_tokens_wraparound (c : GenerationConfig) (p : Nat)
    (hmnt : c.max_new_tokens = SIZE_MAX) (hp : c.max_length < p)
    (hp64 : p < 2 ^ 64) :
    c.get_max_new_tokens p = (c.max_length + 2 ^ 64 - p) % 2 ^ 64 ∧
    c.get_max_new_tokens p = 2 ^ 64 - (p - c.max_length) ∧
    0 < c.get_max_new_tokens p := by
  unfold GenerationConfig.get_max_new_tokens sub64
  simp only [hmnt, ne_eq, not_true_eq_false, if_false]
  refine ⟨by omega, by omega, by omega⟩

/-- C8 counterexample: a configuration with `num_beams = 0` and sampling
off is classified greedy by `is_greedy_decoding()` although its beam width
is not 1, refuting the claimed equivalence with `num_beams == 1`. -/
theorem is_greedy_num_beams_zero :
    cfgZeroBeams.is_greedy_decoding = true ∧
    cfgZeroBeams.do_sample = false ∧
    cfgZeroBeams.num_beams ≠ 1 := by
  refine ⟨rfl, rfl, ?_⟩
  decide

/-- C8 amended: `is_greedy_decoding()` returns true iff sampling is
disabled and `num_beams ≤ 1` (i.e. beam search is off); the code tests
`!(num_beams > 1)`, not `num_beams == 1`. -/
theorem is_greedy_decoding_iff (c : GenerationConfig) :
    c.is_greedy_decoding = true ↔
      c.do_sample = false ∧ c.num_beams ≤ 1 := by
  unfold GenerationConfig.is_greedy_decoding GenerationConfig.is_beam_search
  cases c.do_sample <;> simp [Nat.not_lt]

/-- C10: the outcome of `validate()` is untouched by `num_beam_groups`,
`diversity_penalty`, `length_penalty`, `num_return_sequences`,
`no_repeat_ngram_size` and `stop_criteria` (two configurations differing
only there get the identical result, hence the same first violated rule),
and it succeeds exactly when the nine checked conditions all hold — in
particular those six fields are never themselves checked. -/
theorem validate_ignores_unchecked_fields (c : GenerationConfig)
    (g nrs nng : Nat) (dp lp : ℚ) (sc : StopCriteria) :
    ({ c with
        num_beam_groups := g
        diversity_penalty := dp
        length_penalty := lp
        num_return_sequences := nrs
        no_repeat_ngram_size := nng
        stop_criteria := sc } : GenerationConfig).validate = c.validate ∧
    (c.validate = Except.ok () ↔
      ((c.do_sample = false ∨ c.num_beams = 1) ∧
       0 < c.max_new_tokens ∧
       (c.max_new_tokens ≠ SIZE_MAX ∨ 0 < c.max_length) ∧
       (c.do_sample = false ∨ 0 < c.top_k) ∧
       (c.do_sample = false ∨ (0 < c.top_p ∧ c.top_p ≤ 1)) ∧
       (c.do_sample = false ∨ 0 < c.temperature) ∧
       0 < c.repetition_penalty ∧
       (c.ignore_eos = false ∨ c.max_new_tokens ≠ SIZE_MAX ∨
         c.max_length ≠ SIZE_MAX) ∧
       (c.eos_token_id ≠ -1 ∨ c.max_new_tokens ≠ SIZE_MAX ∨
         c.max_length ≠ SIZE_MAX))) :=
  ⟨rfl, validate_ok_iff c⟩

/-- C4: the `top_k` / `top_p` / `temperature` domain checks apply only when
`do_sample` is true: with sampling off the validation outcome is unchanged
under any values of those three fields, and with sampling on a successful
validation forces `top_k > 0`, `top_p` in `(0, 1]` and `temperature > 0`. -/
theorem validate_sampling_only_domains (c : GenerationConfig) :
    (c.do_sample = false →
      ∀ (tk : Nat) (tp tmp : ℚ),
        ({ c with
            top_k := tk
            top_p := tp
            temperature := tmp } : GenerationConfig).validate = c.validate) ∧
    (c.do_sample = true → c.validate = Except.ok () →
      0 < c.top_k ∧ (0 < c.top_p ∧ c.top_p ≤ 1) ∧ 0 < c.temperature) := by
  constructor
  · intro hds tk tp tmp
    unfold GenerationConfig.validate validate_checks
    simp [hds]
  · intro hds h
    obtain ⟨-, -, -, h4, h5, h6, -⟩ := (validate_ok_iff c).mp h
    refine ⟨?_, ?_, ?_⟩ <;> first
      | exact h4.resolve_left (by simp [hds])
      | exact h5.resolve_left (by simp [hds])
      | exact h6.resolve_left (by simp [hds])

theorem ebind_ok {α β : Type} {e : Except String α} {f : α → Except String β}
    {b : β} : (e >>= f) = Except.ok b ↔ ∃ a, e = Except.ok a ∧ f a = Except.ok b := by
  cases e <;> simp [Bind.bind, Except.bind]

theorem epure_ok {α : Type} {a b : α} :
    (pure a : Except String α) = Except.ok b ↔ a = b := by
  simp [pure, Except.pure]

theorem readNat_absent {src : String → Option CVal} {key : String}
    {cur : Nat} (h : src key = none) :
    readNat src key cur = Except.ok cur := by
  simp [readNat, h]

theorem readNat_present {src : String → Option CVal} {key : String}
    {cur n : Nat} (h : src key = some (CVal.vnat n)) :
    readNat src key cur = Except.ok n := by
  simp [readNat, h]

theorem readInt_absent {src : String → Option CVal} {key : String}
    {cur : Int} (h : src key = none) :
    readInt src key cur = Except.ok cur := by
  simp [readInt, h]

theorem readInt_present {src : String → Option CVal} {key : String}
    {cur : Int} {i : Int} (h : src key = some (CVal.vint i)) :
    readInt src key cur = Except.ok i := by
  simp [readInt, h]

theorem readRat_absent {src : String → Option CVal} {key : String}
    {cur : ℚ} (h : src key = none) :
    readRat src key cur = Except.ok cur := by
  simp [readRat, h]

theorem readRat_present {src : String → Option CVal} {key : String}
    {cur q : ℚ} (h : src key = some (CVal.vrat q)) :
    readRat src key cur = Except.ok q := by
  simp [readRat, h]

theorem readBool_absent {src : String → Option CVal} {key : String}
    {cur : Bool} (h : src key = none) :
    readBool src key cur = Except.ok cur := by
  simp [readBool, h]

theorem readBool_present {src : String → Option CVal} {key : String}
    {cur b : Bool} (h : src key = some (CVal.vbool b)) :
    readBool src key cur = Except.ok b := by
  simp [readBool, h]

theorem readStop_absent {src : String → Option CVal} {key : String}
    {cur : StopCriteria} (h : src key = none) :
    readStop src key cur = Except.ok cur := by
  simp [readStop, h]

theorem readStop_present {src : String → Option CVal} {key : String}
    {cur s : StopCriteria} (h : src key = some (CVal.vstop s)) :
    readStop src key cur = Except.ok s := by
  simp [readStop, h]

set_option maxRecDepth 8192 in
/-- Inversion of a successful `update_generation_config`: each field of the
result is the outcome of its own reader applied to the base field. -/
theorem update_ok_fields {c : GenerationConfig} {m : String → Option CVal}
    {c' : GenerationConfig}
    (h : c.update_generation_config m = Except.ok c') :
    readNat m "max_new_tokens" c.max_new_tokens = Except.ok c'.max_new_tokens ∧
    readNat m "max_length" c.max_length = Except.ok c'.max_length ∧
    readBool m "ignore_eos" c.ignore_eos = Except.ok c'.ignore_eos ∧
    readNat m "num_beam_groups" c.num_beam_groups = Except.ok c'.num_beam_groups ∧
    readNat m "num_beams" c.num_beams = Except.ok c'.num_beams ∧
    readRat m "diversity_penalty" c.diversity_penalty = Except.ok c'.diversity_penalty ∧
    readRat m "length_penalty" c.length_penalty = Except.ok c'.length_penalty ∧
    readNat m "num_return_sequences" c.num_return_sequences = Except.ok c'.num_return_sequences ∧
    readNat m "no_repeat_ngram_size" c.no_repeat_ngram_size = Except.ok c'.no_repeat_ngram_size ∧
    readStop m "stop_criteria" c.stop_criteria = Except.ok c'.stop_criteria ∧
    readRat m "temperature" c.temperature = Except.ok c'.temperature ∧
    readRat m "top_p" c.top_p = Except.ok c'.top_p ∧
    readNat m "top_k" c.top_k = Except.ok c'.top_k ∧
    readBool m "do_sample" c.do_sample = Except.ok c'.do_sample ∧
    readRat m "repetition_penalty" c.repetition_penalty = Except.ok c'.repetition_penalty ∧
    readInt m "eos_token_id" c.eos_token_id = Except.ok c'.eos_token_id := by
  rw [GenerationConfig.update_generation_config] at h
  simp only [ebind_ok, epure_ok] at h
  obtain ⟨mnt, hmnt, ml, hml, ie, hie, nbg, hnbg, nb, hnb, dp, hdp, lp, hlp,
    nrs, hnrs, nng, hnng, sc, hsc, tmp, htmp, tp, htp, tk, htk, ds, hds,
    rp, hrp, eti, heti, hres⟩ := h
  subst hres
  exact ⟨hmnt, hml, hie, hnbg, hnb, hdp, hlp, hnrs, hnng, hsc, htmp, htp,
    htk, hds, hrp, heti⟩

set_option maxRecDepth 8192 in
/-- Inversion of a successful JSON load: each read field of the result is
the outcome of its reader applied to the default, `ignore_eos` is the
default (never read from JSON), and `stop_criteria` comes from the
`early_stopping` shim. -/
theorem load_ok_fields {src : String → Option CVal} {c' : GenerationConfig}
    (h : GenerationConfig.loadFromJson src = Except.ok c') :
    readNat src "max_new_tokens" defaultGenerationConfig.max_new_tokens = Except.ok c'.max_new_tokens ∧
    readNat src "max_length" defaultGenerationConfig.max_length = Except.ok c'.max_length ∧
    readNat src "num_beam_groups" defaultGenerationConfig.num_beam_groups = Except.ok c'.num_beam_groups ∧
    readNat src "num_beams" defaultGenerationConfig.num_beams = Except.ok c'.num_beams ∧
    readRat src "diversity_penalty" defaultGenerationConfig.diversity_penalty = Except.ok c'.diversity_penalty ∧
    readRat src "length_penalty" defaultGenerationConfig.length_penalty = Except.ok c'.length_penalty ∧
    readNat src "num_return_sequences" defaultGenerationConfig.num_return_sequences = Except.ok c'.num_return_sequences ∧
    readNat src "no_repeat_ngram_size" defaultGenerationConfig.no_repeat_ngram_size = Except.ok c'.no_repeat_ngram_size ∧
    readRat src "temperature" defaultGenerationConfig.temperature = Except.ok c'.temperature ∧
    readRat src "top_p" defaultGenerationConfig.top_p = Except.ok c'.top_p ∧
    readNat src "top_k" defaultGenerationConfig.top_k = Except.ok c'.top_k ∧
    readBool src "do_sample" defaultGenerationConfig.do_sample = Except.ok c'.do_sample ∧
    readRat src "repetition_penalty" defaultGenerationConfig.repetition_penalty = Except.ok c'.repetition_penalty ∧
    readInt src "eos_token_id" defaultGenerationConfig.eos_token_id = Except.ok c'.eos_token_id ∧
    c'.ignore_eos = defaultGenerationConfig.ignore_eos ∧
    c'.stop_criteria =
      earlyStoppingShim (src "early_stopping")
        defaultGenerationConfig.stop_criteria := by
  rw [GenerationConfig.loadFromJson] at h
  simp only [ebind_ok, epure_ok] at h
  obtain ⟨mnt, hmnt, ml, hml, nbg, hnbg, nb, hnb, dp, hdp, lp, hlp,
    nrs, hnrs, nng, hnng, tmp, htmp, tp, htp, tk, htk, ds, hds,
    rp, hrp, eti, heti, hres⟩ := h
  subst hres
  exact ⟨hmnt, hml, hnbg, hnb, hdp, hlp, hnrs, hnng, htmp, htp, htk, hds,
    hrp, heti, rfl, rfl⟩

/-- C7: applying a runtime override map leaves every field whose key is
absent from the map unchanged: on a successful
`update_generation_config`, each field whose name the map does not bind
keeps its base value. -/
theorem update_frame (c : GenerationConfig) (m : String → Option CVal)
    (c' : GenerationConfig)
    (h : c.update_generation_config m = Except.ok c') :
    (m "max_new_tokens" = none → c'.max_new_tokens = c.max_new_tokens) ∧
    (m "max_length" = none → c'.max_length = c.max_length) ∧
    (m "ignore_eos" = none → c'.ignore_eos = c.ignore_eos) ∧
    (m "num_beam_groups" = none → c'.num_beam_groups = c.num_beam_groups) ∧
    (m "num_beams" = none → c'.num_beams = c.num_beams) ∧
    (m "diversity_penalty" = none → c'.diversity_penalty = c.diversity_penalty) ∧
    (m "length_penalty" = none → c'.length_penalty = c.length_penalty) ∧
    (m "num_return_sequences" = none → c'.num_return_sequences = c.num_return_sequences) ∧
    (m "no_repeat_ngram_size" = none → c'.no_repeat_ngram_size = c.no_repeat_ngram_size) ∧
    (m "stop_criteria" = none → c'.stop_criteria = c.stop_criteria) ∧
    (m "temperature" = none → c'.temperature = c.temperature) ∧
    (m "top_p" = none → c'.top_p = c.top_p) ∧
    (m "top_k" = none → c'.top_k = c.top_k) ∧
    (m "do_sample" = none → c'.do_sample = c.do_sample) ∧
    (m "repetition_penalty" = none → c'.repetition_penalty = c.repetition_penalty) ∧
    (m "eos_token_id" = none → c'.eos_token_id = c.eos_token_id) := by
  obtain ⟨h1, h2, h3, h4, h5, h6, h7, h8, h9, h10, h11, h12, h13, h14,
    h15, h16⟩ := update_ok_fields h
  refine ⟨fun hn => ?_, fun hn => ?_, fun hn => ?_, fun hn => ?_,
    fun hn => ?_, fun hn => ?_, fun hn => ?_, fun hn => ?_, fun hn => ?_,
    fun hn => ?_, fun hn => ?_, fun hn => ?_, fun hn => ?_, fun hn => ?_,
    fun hn => ?_, fun hn => ?_⟩
  · exact (Except.ok.inj ((readNat_absent hn).symm.trans h1)).symm
  · exact (Except.ok.inj ((readNat_absent hn).symm.trans h2)).symm
  · exact (Except.ok.inj ((readBool_absent hn).symm.trans h3)).symm
  · exact (Except.ok.inj ((readNat_absent hn).symm.trans h4)).symm
  · exact (Except.ok.inj ((readNat_absent hn).symm.trans h5)).symm
  · exact (Except.ok.inj ((readRat_absent hn).symm.trans h6)).symm
  · exact (Except.ok.inj ((readRat_absent hn).symm.trans h7)).symm
  · exact (Except.ok.inj ((readNat_absent hn).symm.trans h8)).symm
  · exact (Except.ok.inj ((readNat_absent hn).symm.trans h9)).symm
  · exact (Except.ok.inj ((readStop_absent hn).symm.trans h10)).symm
  · exact (Except.ok.inj ((readRat_absent hn).symm.trans h11)).symm
  · exact (Except.ok.inj ((readRat_absent hn).symm.trans h12)).symm
  · exact (Except.ok.inj ((readNat_absent hn).symm.trans h13)).symm
  · exact (Except.ok.inj ((readBool_absent hn).symm.trans h14)).symm
  · exact (Except.ok.inj ((readRat_absent hn).symm.trans h15)).symm
  · exact (Except.ok.inj ((readInt_absent hn).symm.trans h16)).symm

/-- C6 counterexample: a JSON document whose only field is
`ignore_eos: true` loads successfully, yet the resulting configuration
still has `ignore_eos = false` — the file-backed load does not read the
`ignore_eos` key, refuting the claim that every field of the data-model
table is overwritten when present. -/
theorem load_ignores_ignore_eos :
    srcIgnoreEos "ignore_eos" = some (CVal.vbool true) ∧
    GenerationConfig.loadFromJson srcIgnoreEos
      = Except.ok defaultGenerationConfig ∧
    defaultGenerationConfig.ignore_eos = false :=
  ⟨rfl, rfl, rfl⟩

/-- C6 amended: the file-backed load recognizes the table fields except
`ignore_eos` (never read from JSON) and `stop_criteria` (reachable only
through the `early_stopping` alias): every recognized key present in the
document overwrites its field, while the loaded `ignore_eos` is always the
default `false`. -/
theorem load_recognized_fields (src : String → Option CVal)
    (c' : GenerationConfig)
    (h : GenerationConfig.loadFromJson src = Except.ok c') :
    c'.ignore_eos = false ∧
    c'.stop_criteria =
      earlyStoppingShim (src "early_stopping") StopCriteria.HEURISTIC ∧
    (∀ n, src "max_new_tokens" = some (CVal.vnat n) → c'.max_new_tokens = n) ∧
    (∀ n, src "max_length" = some (CVal.vnat n) → c'.max_length = n) ∧
    (∀ n, src "num_beam_groups" = some (CVal.vnat n) → c'.num_beam_groups = n) ∧
    (∀ n, src "num_beams" = some (CVal.vnat n) → c'.num_beams = n) ∧
    (∀ q, src "diversity_penalty" = some (CVal.vrat q) → c'.diversity_penalty = q) ∧
    (∀ q, src "length_penalty" = some (CVal.vrat q) → c'.length_penalty = q) ∧
    (∀ n, src "num_return_sequences" = some (CVal.vnat n) → c'.num_return_sequences = n) ∧
    (∀ n, src "no_repeat_ngram_size" = some (CVal.vnat n) → c'.no_repeat_ngram_size = n) ∧
    (∀ q, src "temperature" = some (CVal.vrat q) → c'.temperature = q) ∧
    (∀ q, src "top_p" = some (CVal.vrat q) → c'.top_p = q) ∧
    (∀ n, src "top_k" = some (CVal.vnat n) → c'.top_k = n) ∧
    (∀ b, src "do_sample" = some (CVal.vbool b) → c'.do_sample = b) ∧
    (∀ q, src "repetition_penalty" = some (CVal.vrat q) → c'.repetition_penalty = q) ∧
    (∀ i, src "eos_token_id" = some (CVal.vint i) → c'.eos_token_id = i) := by
  obtain ⟨h1, h2, h3, h4, h5, h6, h7, h8, h9, h10, h11, h12, h13, h14,
    hie, hsc⟩ := load_ok_fields h
  refine ⟨hie, hsc, ?_, ?_, ?_, ?_, ?_, ?_, ?_, ?_, ?_, ?_, ?_, ?_, ?_, ?_⟩
  · exact fun n hn => (Except.ok.inj ((readNat_present hn).symm.trans h1)).symm
  · exact fun n hn => (Except.ok.inj ((readNat_present hn).symm.trans h2)).symm
  · exact fun n hn => (Except.ok.inj ((readNat_present hn).symm.trans h3)).symm
  · exact fun n hn => (Except.ok.inj ((readNat_present hn).symm.trans h4)).symm
  · exact fun q hq => (Except.ok.inj ((readRat_present hq).symm.trans h5)).symm
  · exact fun q hq => (Except.ok.inj ((readRat_present hq).symm.trans h6)).symm
  · exact fun n hn => (Except.ok.inj ((readNat_present hn).symm.trans h7)).symm
  · exact fun n hn => (Except.ok.inj ((readNat_present hn).symm.trans h8)).symm
  · exact fun q hq => (Except.ok.inj ((readRat_present hq).symm.trans h9)).symm
  · exact fun q hq => (Except.ok.inj ((readRat_present hq).symm.trans h10)).symm
  · exact fun n hn => (Except.ok.inj ((readNat_present hn).symm.trans h11)).symm
  · exact fun b hb => (Except.ok.inj ((readBool_present hb).symm.trans h12)).symm
  · exact fun q hq => (Except.ok.inj ((readRat_present hq).symm.trans h13)).symm
  · exact fun i hi => (Except.ok.inj ((readInt_present hi).symm.trans h14)).symm

/-- C5: decoding of the `early_stopping` field during file-backed load:
the string `"never"` yields `NEVER`, boolean `true` yields `EARLY`,
boolean `false` yields `HEURISTIC`, and any other encoding (another
string, a number, any other shape) keeps the prior value without raising
an error; the loaded `stop_criteria` is exactly the shim applied to the
document's `early_stopping` field over the default `HEURISTIC`. -/
theorem early_stopping_decoding :
    (∀ cur, earlyStoppingShim (some (CVal.vstr "never")) cur
      = StopCriteria.NEVER) ∧
    (∀ cur, earlyStoppingShim (some (CVal.vbool true)) cur
      = StopCriteria.EARLY) ∧
    (∀ cur, earlyStoppingShim (some (CVal.vbool false)) cur
      = StopCriteria.HEURISTIC) ∧
    (∀ s cur, s ≠ "never" →
      earlyStoppingShim (some (CVal.vstr s)) cur = cur) ∧
    (∀ n cur, earlyStoppingShim (some (CVal.vnat n)) cur = cur) ∧
    (∀ i cur, earlyStoppingShim (some (CVal.vint i)) cur = cur) ∧
    (∀ q cur, earlyStoppingShim (some (CVal.vrat q)) cur = cur) ∧
    (∀ src c', GenerationConfig.loadFromJson src = Except.ok c' →
      c'.stop_criteria =
        earlyStoppingShim (src "early_stopping") StopCriteria.HEURISTIC) := by
  refine ⟨fun cur => rfl, fun cur => rfl, fun cur => rfl,
    fun s cur hs => ?_, fun n cur => rfl, fun i cur => rfl,
    fun q cur => rfl, fun src c' h => (load_ok_fields h).2.2.2.2.2.2.2.2.2.2.2.2.2.2.2⟩
  simp [earlyStoppingShim, hs]

/-- Witness for C1: a concrete configuration that validates, with its mode
booleans summing to exactly 1. -/
theorem decoding_mode_partition_witness :
    cfgMaxNew.validate = Except.ok () ∧
    cfgMaxNew.is_greedy_decoding.toNat + cfgMaxNew.is_beam_search.toNat
      + cfgMaxNew.is_multinomial.toNat = 1 :=
  ⟨rfl, decoding_mode_partition cfgMaxNew rfl⟩

/-- Witness for C2: with only `max_length = 100` set, a prompt of length 30
leaves a budget of 70; with `max_new_tokens = 100` set, the budget is 100
regardless of the prompt. -/
theorem get_max_new_tokens_priority_witness :
    cfgMaxLen.max_length < 2 ^ 64 ∧ 30 ≤ cfgMaxLen.max_length ∧
    cfgMaxLen.get_max_new_tokens 30 =
      (if cfgMaxLen.max_new_tokens ≠ SIZE_MAX then cfgMaxLen.max_new_tokens
       else cfgMaxLen.max_length - 30) ∧
    cfgMaxLen.get_max_new_tokens 30 = 70 ∧
    cfgMaxNew.get_max_new_tokens 10 = 100 :=
  ⟨by decide, by decide,
   get_max_new_tokens_priority cfgMaxLen 30 (by decide) (by decide),
   by decide, by decide⟩

/-- Witness for C4: concrete sampling-off configuration where out-of-domain
`top_k`, `top_p`, `temperature` leave the validation outcome unchanged, and
a concrete sampling-on configuration whose successful validation forces the
domains. -/
theorem validate_sampling_only_domains_witness :
    ({ defaultGenerationConfig with
        top_k := 0
        top_p := 5
        temperature := 0 } : GenerationConfig).validate
      = defaultGenerationConfig.validate ∧
    (0 < cfgSampling.top_k ∧ (0 < cfgSampling.top_p ∧ cfgSampling.top_p ≤ 1)
      ∧ 0 < cfgSampling.temperature) :=
  ⟨(validate_sampling_only_domains defaultGenerationConfig).1 rfl 0 5 0,
   (validate_sampling_only_domains cfgSampling).2 rfl rfl⟩

/-- Witness for C5: the shim evaluated at the four documented encodings,
and a concrete load whose only field is `early_stopping: "never"`. -/
theorem early_stopping_decoding_witness :
    earlyStoppingShim (some (CVal.vstr "never")) StopCriteria.HEURISTIC
      = StopCriteria.NEVER ∧
    earlyStoppingShim (some (CVal.vbool true)) StopCriteria.HEURISTIC
      = StopCriteria.EARLY ∧
    earlyStoppingShim (some (CVal.vbool false)) StopCriteria.EARLY
      = StopCriteria.HEURISTIC ∧
    earlyStoppingShim (some (CVal.vstr "maybe")) StopCriteria.EARLY
      = StopCriteria.EARLY ∧
    ({ stop_criteria := StopCriteria.NEVER } : GenerationConfig).stop_criteria
      = earlyStoppingShim (srcNever "early_stopping") StopCriteria.HEURISTIC :=
  ⟨early_stopping_decoding.1 StopCriteria.HEURISTIC,
   early_stopping_decoding.2.1 StopCriteria.HEURISTIC,
   early_stopping_decoding.2.2.1 StopCriteria.EARLY,
   early_stopping_decoding.2.2.2.1 "maybe" StopCriteria.EARLY (by decide),
   early_stopping_decoding.2.2.2.2.2.2.2 srcNever
     { stop_criteria := StopCriteria.NEVER } rfl⟩

/-- Witness for C6 (amended): loading a document whose only field is
`num_beams: 4` overwrites `num_beams` and leaves `ignore_eos` false. -/
theorem load_recognized_fields_witness :
    ({ num_beams := 4 } : GenerationConfig).ignore_eos = false ∧
    ({ num_beams := 4 } : GenerationConfig).num_beams = 4 := by
  obtain ⟨hie, -, -, -, -, hnb, -, -, -, -, -, -, -, -, -, -⟩ :=
    load_recognized_fields srcNumBeams { num_beams := 4 } rfl
  exact ⟨hie, hnb 4 rfl⟩

/-- Witness for C7: overriding only `top_k` on the default configuration
leaves `temperature` (and its key is indeed absent) untouched, while
`top_k` becomes 40. -/
theorem update_frame_witness :
    srcTopK "temperature" = none ∧
    ({ top_k := 40 } : GenerationConfig).temperature
      = defaultGenerationConfig.temperature ∧
    ({ top_k := 40 } : GenerationConfig).top_k = 40 := by
  obtain ⟨-, -, -, -, -, -, -, -, -, -, htmp, -, -, -, -, -⟩ :=
    update_frame defaultGenerationConfig srcTopK { top_k := 40 } rfl
  exact ⟨rfl, htmp rfl, rfl⟩

/-- Witness for C9: `max_length = 5`, prompt length 10: the budget wraps to
`2 ^ 64 - 5`, not zero. -/
theorem get_max_new_tokens_wraparound_witness :
    cfgShortMax.max_new_tokens = SIZE_MAX ∧ cfgShortMax.max_length < 10 ∧
    (10 : Nat) < 2 ^ 64 ∧
    (cfgShortMax.get_max_new_tokens 10 =
        (cfgShortMax.max_length + 2 ^ 64 - 10) % 2 ^ 64 ∧
      cfgShortMax.get_max_new_tokens 10 =
        2 ^ 64 - (10 - cfgShortMax.max_length) ∧
      0 < cfgShortMax.get_max_new_tokens 10) :=
  ⟨by decide, by decide, by decide,
   get_max_new_tokens_wraparound cfgShortMax 10 (by decide) (by decide)
     (by decide)⟩
